import Mathlib

/-!
Shallow embedding of the SEMOSS → OpenAI chat-completion adapter
(`src/main.js`) and verification of its specified behaviour.

JavaScript values that the adapter inspects are modelled explicitly:
a message role may be a string or a non-string value (`RoleVal.undef`),
thrown exceptions are `Except.error` values tagged by kind, and the
vendor output may be an object, a string, or absent, with JS truthiness
made explicit (`outTruthy`, `respTruthy`).
-/

set_option autoImplicit false

namespace Semoss

/-- A JS value sitting in a message's `role` field: either a string or a
non-string value (missing / `undefined` / any other type, on which
`.toLowerCase()` throws a `TypeError`). -/
inductive RoleVal where
  | str (s : String)
  | undef
deriving DecidableEq, Repr

/-- A message as the adapter receives it: `{role, content}`. -/
structure MessageJS where
  role : RoleVal
  content : String
deriving DecidableEq, Repr

/-- A well-typed message (role is a string), the shape the spec's data
model describes. -/
structure Message where
  role : String
  content : String
deriving DecidableEq, Repr

/-- Inclusion of well-typed messages into JS messages. -/
def Message.toJS (m : Message) : MessageJS :=
  { role := RoleVal.str m.role, content := m.content }

/-- A thrown JS exception, tagged by kind: validation `Error`s thrown
explicitly by the adapter, engine `TypeError`s, and other `Error`s. -/
inductive JsError where
  | validation (msg : String)
  | typeError (msg : String)
  | error (msg : String)
deriving DecidableEq, Repr

/-- `role.toLowerCase()`, character by character. -/
def jsToLower (s : String) : String := String.mk (s.data.map Char.toLower)

/-- `role.charAt(0).toUpperCase() + role.slice(1)` from `_getRoleName`'s
default branch. -/
def capitalizeFirst (s : String) : String :=
  match s.data with
  | [] => ""
  | c :: rest => String.mk (c.toUpper :: rest)

/-- `_getRoleName` (src/main.js:123-134): switch on `role.toLowerCase()`;
calling `.toLowerCase()` on a non-string throws a `TypeError`. -/
def _getRoleName : RoleVal → Except JsError String
  | RoleVal.undef => Except.error (JsError.typeError "role.toLowerCase is not a function")
  | RoleVal.str role =>
    Except.ok (
      if jsToLower role = "user" then "User"
      else if jsToLower role = "assistant" then "Assistant"
      else if jsToLower role = "system" then "System"
      else capitalizeFirst role)

instance instDecEqExcept {ε α : Type} [DecidableEq ε] [DecidableEq α] :
    DecidableEq (Except ε α) := fun a b =>
  match a, b with
  | Except.ok x, Except.ok y => decidable_of_iff (x = y) (by simp)
  | Except.ok _, Except.error _ => isFalse (by simp)
  | Except.error _, Except.ok _ => isFalse (by simp)
  | Except.error x, Except.error y => decidable_of_iff (x = y) (by simp)

/-- The loop of `_formatMessagesForSemoss` (src/main.js:102-107): every
non-system message contributes `"<RoleName>: <content>\n\n"`; a
`TypeError` from `_getRoleName` aborts the whole call. -/
def formatBody : List MessageJS → Except JsError String
  | [] => Except.ok ""
  | m :: rest =>
    if m.role = RoleVal.str "system" then formatBody rest
    else
      match _getRoleName m.role with
      | Except.error e => Except.error e
      | Except.ok roleName =>
        match formatBody rest with
        | Except.error e => Except.error e
        | Except.ok tailStr => Except.ok (roleName ++ ": " ++ m.content ++ "\n\n" ++ tailStr)

/-- The optional `<system_prompt>` block (src/main.js:95-98): only the
first system message is honoured. -/
def sysHead (messages : List MessageJS) : String :=
  match messages.filter (fun m => decide (m.role = RoleVal.str "system")) with
  | [] => ""
  | m :: _ => "<system_prompt>\n " ++ m.content ++ "\n</system_prompt>\n\n"

/-- `_formatMessagesForSemoss` (src/main.js:82-115). -/
def _formatMessagesForSemoss (messages : List MessageJS) : Except JsError String :=
  if messages.length = 0 then
    Except.error (JsError.validation "Messages array is empty or invalid")
  else if messages.any (fun m => decide (m.role = RoleVal.str "user")) = false then
    Except.error (JsError.validation "At least one user message is required")
  else
    match formatBody messages with
    | Except.error e => Except.error e
    | Except.ok body =>
      Except.ok ((((sysHead messages ++ "<conversation_history>\n") ++ body)
        ++ "</conversation_history>\n") ++ "Assistant: ")

/-- The hard-coded `modelMap` table (src/main.js:12-15). -/
def modelMap : List (String × String) :=
  [("Llama-3.1-8B-Instruct", "305f694d-c91c-400f-bd6c-b7e1dfbb5a4b"),
   ("Qwen2.5-7B-Instruct", "a1b1b9ad-17c7-473a-9dfb-b2b8c29cdef0")]

/-- The fallback engine id used when the lookup is falsy (src/main.js:147). -/
def defaultModelId : String := "305f694d-c91c-400f-bd6c-b7e1dfbb5a4b"

/-- The keys every object literal inherits from `Object.prototype`; for
each of them `this.modelMap[key]` evaluates to an inherited, truthy,
non-string value (a built-in function, or `Object.prototype` itself for
`__proto__`) rather than `undefined`. -/
def objectPrototypeKeys : List String :=
  ["constructor", "hasOwnProperty", "isPrototypeOf", "propertyIsEnumerable",
   "toLocaleString", "toString", "valueOf", "__proto__", "__defineGetter__",
   "__defineSetter__", "__lookupGetter__", "__lookupSetter__"]

/-- A value `this.modelMap[name]` can evaluate to: a string from the
table itself, or the truthy non-string member inherited from
`Object.prototype` under the given key. -/
inductive ModelIdVal where
  | str (s : String)
  | inherited (key : String)
deriving DecidableEq, Repr

/-- `this.modelMap[openaiModel]` with JS bracket-lookup semantics
(src/main.js:143): own keys of the literal first, then the
`Object.prototype` chain, otherwise `undefined` (`none`). -/
def modelMapGet (name : String) : Option ModelIdVal :=
  match modelMap.lookup name with
  | some v => some (ModelIdVal.str v)
  | none =>
    if name ∈ objectPrototypeKeys then some (ModelIdVal.inherited name) else none

/-- JS truthiness of the looked-up value (`!modelId`): `undefined` and
the empty string are falsy; inherited prototype members are truthy. -/
def modelIdTruthy : Option ModelIdVal → Bool
  | none => false
  | some (ModelIdVal.str s) => decide (s ≠ "")
  | some (ModelIdVal.inherited _) => true

/-- `_getSemossModelId` (src/main.js:142-151): bracket lookup on the
`modelMap` literal (prototype chain included), with the hard-coded
default whenever the looked-up value is falsy. -/
def _getSemossModelId (openaiModel : String) : ModelIdVal :=
  match modelMapGet openaiModel with
  | none => ModelIdVal.str defaultModelId
  | some modelId =>
    if modelIdTruthy (some modelId) = false then ModelIdVal.str defaultModelId
    else modelId

/-- The `output` field of the first pixel-return entry: an object (with
optional `response` and `numberOfTokensInResponse` fields), a string, or
absent/null. -/
inductive OutputVal where
  | objV (response : Option String) (numberOfTokensInResponse : Option Nat)
  | strV (s : String)
  | nullV
deriving DecidableEq, Repr

/-- JS truthiness of the `output` value: objects are truthy, strings are
truthy iff non-empty, null/undefined is falsy. -/
def outTruthy : OutputVal → Bool
  | OutputVal.objV _ _ => true
  | OutputVal.strV s => decide (s ≠ "")
  | OutputVal.nullV => false

/-- JS truthiness of the `output.response` field. -/
def respTruthy : Option String → Bool
  | none => false
  | some s => decide (s ≠ "")

/-- One entry of the vendor result's `pixelReturn` array. -/
structure PixelReturnEntry where
  output : OutputVal
deriving DecidableEq, Repr

/-- The vendor result `{pixelReturn, errors, insightId}` returned by
`runPixel` (spec §6). -/
structure SemossResponse where
  pixelReturn : List PixelReturnEntry
  errors : List String
  insightId : Option String
deriving DecidableEq, Repr

/-- `usage` counters of the OpenAI-like envelope. -/
structure Usage where
  prompt_tokens : Nat
  completion_tokens : Nat
  total_tokens : Nat
deriving DecidableEq, Repr

/-- The single choice's `message` of the OpenAI-like envelope. -/
structure ChoiceMessage where
  role : String
  content : String
deriving DecidableEq, Repr

/-- One choice of the OpenAI-like envelope. -/
structure Choice where
  index : Nat
  message : ChoiceMessage
  finish_reason : String
deriving DecidableEq, Repr

/-- The OpenAI-like completion result (src/main.js:179-199). -/
structure CompletionResult where
  id : String
  object : String
  created : Nat
  model : String
  choices : List Choice
  usage : Usage
deriving DecidableEq, Repr

/-- The text/token extraction of `_formatSemossResponse`
(src/main.js:161-176), with JS truthiness explicit: the outer guard
requires a truthy `output`, the object branch a truthy `response`. -/
def extractPair (r : SemossResponse) : String × Nat :=
  match r.pixelReturn with
  | [] => ("No response received", 0)
  | pr :: _ =>
    if outTruthy pr.output then
      match pr.output with
      | OutputVal.objV resp toks =>
        if respTruthy resp then ((resp.getD ""), toks.getD 0)
        else ("No response received", 0)
      | OutputVal.strV s => (s, 0)
      | OutputVal.nullV => ("No response received", 0)
    else ("No response received", 0)

/-- `semossResponse.insightId || 'chatcmpl-' + Date.now()`: a falsy
(absent or empty) insight id falls back to a timestamp-based id. -/
def jsIdOr (o : Option String) (fallback : String) : String :=
  match o with
  | none => fallback
  | some s => if s = "" then fallback else s

/-- `_formatSemossResponse` (src/main.js:159-200); `now` stands for
`Date.now()` in milliseconds. -/
def _formatSemossResponse (r : SemossResponse) (now : Nat) : CompletionResult :=
  let p := extractPair r
  { id := jsIdOr r.insightId ("chatcmpl-" ++ toString now)
    object := "chat.completion"
    created := now / 1000
    model := "semoss-llm"
    choices := [{ index := 0
                  message := { role := "assistant", content := p.1 }
                  finish_reason := "stop" }]
    usage := { prompt_tokens := 0, completion_tokens := p.2, total_tokens := p.2 } }

/-- The adapter's mutable fields that the guard logic reads
(src/main.js:6-9). -/
structure AdapterState where
  insightId : Option String
  initialized : Bool
  authorized : Bool
deriving DecidableEq, Repr

/-- What `insight._store` exposes after `insight.initialize()`
(src/main.js:36-38), or the error message thrown by it. -/
structure InitResult where
  insightId : Option String
  isInitialized : Bool
  isAuthorized : Bool
deriving DecidableEq, Repr

/-- `_initialize` (src/main.js:31-56): skipped when already initialized;
otherwise copies the store's fields into the adapter and then checks the
two flags, wrapping any thrown error (including its own flag-check
throws) with the `Failed to initialize SEMOSS SDK: ` prefix. Returns the
state after the call together with the exception it throws, if any. -/
def _initialize (st : AdapterState) (env : Except String InitResult) :
    AdapterState × Option JsError :=
  if st.initialized then (st, none)
  else
    match env with
    | Except.error e =>
      (st, some (JsError.error ("Failed to initialize SEMOSS SDK: " ++ e)))
    | Except.ok r =>
      let st' : AdapterState :=
        { insightId := r.insightId, initialized := r.isInitialized,
          authorized := r.isAuthorized }
      if r.isInitialized = false then
        (st', some (JsError.error
          "Failed to initialize SEMOSS SDK: Failed to initialize SEMOSS SDK"))
      else if r.isAuthorized = false then
        (st', some (JsError.error
          "Failed to initialize SEMOSS SDK: Failed to authorize user on SEMOSS platform"))
      else (st', none)

/-- The two flag checks at the end of `_ensureInitialized`
(src/main.js:67-73), applied to the state/error pair left by the
optional re-bootstrap. -/
def ensureFlagsCheck (p : AdapterState × Option JsError) : AdapterState × Option JsError :=
  match p with
  | (st, some e) => (st, some e)
  | (st, none) =>
    if st.initialized = false then
      (st, some (JsError.error "SEMOSS SDK failed to initialize"))
    else if st.authorized = false then
      (st, some (JsError.error "SEMOSS SDK failed to authorize user on SEMOSS platform"))
    else (st, none)

/-- `_ensureInitialized` (src/main.js:62-74): re-runs `_initialize` when
either flag is false, then checks both flags. -/
def _ensureInitialized (st : AdapterState) (env : Except String InitResult) :
    AdapterState × Option JsError :=
  if st.initialized = false ∨ st.authorized = false then
    ensureFlagsCheck ( _initialize st env)
  else
    ensureFlagsCheck (st, none)

/-- The options bag of `createChatCompletion`: `model` defaults to
`"gpt-4o"`, `messages` may be absent, `stream` defaults to false. -/
structure Options where
  model : Option String
  messages : Option (List MessageJS)
  stream : Bool
deriving Repr

/-- What `createChatCompletion` returns on success: a completion result
(non-streaming) or the streaming handle built from the resolved engine id
and formatted prompt (src/main.js:224, 252). -/
inductive CreateResult where
  | completion (c : CompletionResult)
  | streamHandle (modelId : ModelIdVal) (content : String)
deriving DecidableEq, Repr

/-- `createChatCompletion` of the full adapter (src/main.js:210-243).
`env` models what the vendor session bootstrap would yield, `qr` the
outcome of `runPixel` (its resolution value, or the message of its
rejection), `now` the clock. -/
def createChatCompletion (st : AdapterState) (env : Except String InitResult)
    (opts : Options) (qr : Except String SemossResponse) (now : Nat) :
    Except JsError CreateResult :=
  match _ensureInitialized st env with
  | (_, some e) => Except.error e
  | (_, none) =>
    match opts.messages with
    | none => Except.error (JsError.validation "Messages array is required")
    | some msgs =>
      if msgs.length = 0 then
        Except.error (JsError.validation "Messages array is required")
      else
        let modelId := _getSemossModelId (opts.model.getD "gpt-4o")
        match _formatMessagesForSemoss msgs with
        | Except.error e => Except.error e
        | Except.ok content =>
          if opts.stream then Except.ok (CreateResult.streamHandle modelId content)
          else
            match qr with
            | Except.error m =>
              Except.error (JsError.error ("SEMOSS API Error: " ++ m))
            | Except.ok result =>
              if result.errors.length ≠ 0 then
                Except.error (JsError.error
                  ("SEMOSS API Error: " ++ String.intercalate ", " result.errors))
              else Except.ok (CreateResult.completion (_formatSemossResponse result now))

/-- `createChatCompletion` of the truncated near-duplicate adapter
definition (src/unnamed/part_000:144-147, src/main.js:583-585): it runs
the initialization guard and nothing else, resolving to `undefined`. -/
def createChatCompletionV2 (st : AdapterState) (env : Except String InitResult)
    (_opts : Options) : Except JsError Unit :=
  match _ensureInitialized st env with
  | (_, some e) => Except.error e
  | (_, none) => Except.ok ()

/-- An OpenAI-like streaming chunk; `delta = none` models the empty
delta object `{}` of the terminal chunk (src/main.js:310-356). The
time-dependent `id`/`created` fields are omitted. -/
structure Chunk where
  object : String
  model : String
  index : Nat
  delta : Option String
  finish_reason : Option String
deriving DecidableEq, Repr

/-- The delta chunk emitted when the buffer grew (src/main.js:310-327). -/
def deltaChunk (content : String) : Chunk :=
  { object := "chat.completion.chunk", model := "semoss-llm", index := 0,
    delta := some content, finish_reason := none }

/-- The terminal chunk emitted when the query resolved
(src/main.js:341-356): empty delta, finish reason "stop". -/
def stopChunk : Chunk :=
  { object := "chat.completion.chunk", model := "semoss-llm", index := 0,
    delta := none, finish_reason := some "stop" }

/-- The closure state of the streaming iterator (src/main.js:256-263),
plus `started` (whether `runPixelPromise` was set) and `timerActive`
(whether the `setInterval` timer is running). -/
structure StreamState where
  isCollecting : Bool
  fullResponse : String
  lastResponseLength : Nat
  started : Bool
  timerActive : Bool
  isComplete : Bool
  error : Option String
deriving DecidableEq, Repr

/-- The iterator state right after `Symbol.asyncIterator` is invoked
(src/main.js:256-263). -/
def initialStreamState : StreamState :=
  { isCollecting := true, fullResponse := "", lastResponseLength := 0,
    started := false, timerActive := false, isComplete := false, error := none }

/-- One tick of the 250 ms polling timer (src/main.js:286-298): while
collecting, a partial read with a truthy `message.total` overwrites the
buffered full response; otherwise nothing changes (read errors are
swallowed by the callback). -/
def pollTick (st : StreamState) (total : Option String) : StreamState :=
  if st.isCollecting = false then st
  else
    match total with
    | none => st
    | some t => if t = "" then st else { st with fullResponse := t }

/-- `fullResponse.substring(lastResponseLength)` (src/main.js:306). -/
def jsSubstring (s : String) (start : Nat) : String :=
  String.mk (s.data.drop start)

/-- What one advance of the iterator observes at the race point
(src/main.js:331-334): the query resolved, is still pending, or
rejected with a message. -/
inductive RaceOutcome where
  | resolved
  | pending
  | threw (msg : String)
deriving DecidableEq, Repr

/-- The outcome of one pass through the body of `next`
(src/main.js:267-369): yield a chunk, retry after the 100 ms sleep
(the `return this.next()` recursion), signal end of sequence, or throw. -/
inductive StepResult where
  | yield (c : Chunk)
  | retry
  | done
  | throwErr (msg : String)
deriving DecidableEq, Repr

/-- The first-advance setup (src/main.js:280-302): start the query and
the polling timer; on later advances nothing changes. -/
def startStep (st : StreamState) : StreamState :=
  if st.started then st else { st with started := true, timerActive := true }

/-- One pass through the body of the iterator's `next`
(src/main.js:267-369): saved error first, then the completion check,
then (after starting the query/timer on the first advance) the growth
check, and finally the race against the outstanding query. A rejection
observed at the race is wrapped with the `SEMOSS API Streaming Error: `
prefix, saved, and thrown; the timer is cleared on both the terminal
and the error path. -/
def nextStep (st : StreamState) (race : RaceOutcome) : StreamState × StepResult :=
  match st.error with
  | some em => (st, StepResult.throwErr em)
  | none =>
    if st.isComplete then (st, StepResult.done)
    else
      let st1 := startStep st
      if st1.fullResponse.length > st1.lastResponseLength then
        let newContent := jsSubstring st1.fullResponse st1.lastResponseLength
        ({ st1 with lastResponseLength := st1.fullResponse.length },
         StepResult.yield (deltaChunk newContent))
      else
        match race with
        | RaceOutcome.resolved =>
          ({ st1 with isCollecting := false, timerActive := false, isComplete := true },
           StepResult.yield stopChunk)
        | RaceOutcome.pending => (st1, StepResult.retry)
        | RaceOutcome.threw m =>
          let em := "SEMOSS API Streaming Error: " ++ m
          ({ st1 with error := some em, isCollecting := false, timerActive := false },
           StepResult.throwErr em)

/-- `p` occurs as a substring of `s`. -/
def ContainsSub (s p : String) : Prop := ∃ a b, s = a ++ (p ++ b)

/-- `s` ends with `suffix`. -/
def EndsWithStr (s suffix : String) : Prop := ∃ a, s = a ++ suffix

/-- `p` occurs in `s`, followed (later) by an occurrence of `q`. -/
def ContainsSeq (s p q : String) : Prop := ∃ a b c, s = a ++ (p ++ (b ++ (q ++ c)))

/-- No response text is extractable from the vendor result: the
pixel-return array is empty, its first output is falsy, or the first
output is an object without a truthy `response` field. -/
def extractsNothing (r : SemossResponse) : Prop :=
  match r.pixelReturn with
  | [] => True
  | pr :: _ =>
    outTruthy pr.output = false ∨
    ∃ resp toks, pr.output = OutputVal.objV resp toks ∧ respTruthy resp = false

/-- Whether a call resolved (rather than threw). -/
def succeeds {α : Type} : Except JsError α → Bool
  | Except.ok _ => true
  | Except.error _ => false

/-- An adapter state with both flags already true. -/
def readyState : AdapterState :=
  { insightId := some "insight-1", initialized := true, authorized := true }

/-- A bootstrap environment that reports success. -/
def okEnv : Except String InitResult :=
  Except.ok { insightId := some "insight-1", isInitialized := true, isAuthorized := true }

/-- An options bag carrying an empty messages array. -/
def emptyMessagesOpts : Options :=
  { model := none, messages := some [], stream := false }

/-- The example message list of spec §8. -/
def exampleMessages : List MessageJS :=
  [{ role := RoleVal.str "system", content := "Be terse" },
   { role := RoleVal.str "user", content := "Hi" }]

/-- The prompt the formatter produces for `exampleMessages`. -/
def exampleFormatted : String :=
  "<system_prompt>\n Be terse\n</system_prompt>\n\n<conversation_history>\nUser: Hi\n\n</conversation_history>\nAssistant: "

theorem length_pos_of_ne_empty (s : String) (h : s ≠ "") : 0 < s.length := by
  cases s with
  | mk data =>
    cases data with
    | nil => exact absurd rfl h
    | cons c cs => simp [String.length]

theorem formatBody_error_typeError (l : List MessageJS) (e : JsError)
    (h : formatBody l = Except.error e) : ∃ msg, e = JsError.typeError msg := by
  induction l with
  | nil => simp [formatBody] at h
  | cons m rest ih =>
    by_cases hs : m.role = RoleVal.str "system"
    · rw [formatBody, if_pos hs] at h
      exact ih h
    · rw [formatBody, if_neg hs] at h
      cases m with
      | mk role content =>
        cases role with
        | undef =>
          simp only [_getRoleName] at h
          exact ⟨_, (Except.error.injEq _ _ ▸ h).symm⟩
        | str s =>
          simp only [_getRoleName] at h
          cases hb : formatBody rest with
          | error e' =>
            rw [hb] at h
            exact ih (hb.trans (congrArg Except.error (Except.error.injEq _ _ ▸ h)))
          | ok b => rw [hb] at h; exact absurd h (by simp)

theorem formatBody_ok_of_str_roles (l : List MessageJS)
    (h : ∀ m ∈ l, ∃ s, m.role = RoleVal.str s) : ∃ b, formatBody l = Except.ok b := by
  induction l with
  | nil => exact ⟨"", rfl⟩
  | cons m rest ih =>
    obtain ⟨b, hb⟩ := ih (fun m' hm' => h m' (List.mem_cons_of_mem _ hm'))
    obtain ⟨s, hs⟩ := h m (List.mem_cons_self _ _)
    by_cases hsys : m.role = RoleVal.str "system"
    · exact ⟨b, by rw [formatBody, if_pos hsys]; exact hb⟩
    · cases hr : _getRoleName m.role with
      | error e => rw [hs] at hr; simp [_getRoleName] at hr
      | ok roleName =>
        exact ⟨roleName ++ ": " ++ m.content ++ "\n\n" ++ b,
          by rw [formatBody, if_neg hsys, hr, hb]⟩

theorem formatBody_typeError_of_undef (l : List MessageJS)
    (h : ∃ m ∈ l, m.role = RoleVal.undef) :
    ∃ msg, formatBody l = Except.error (JsError.typeError msg) := by
  induction l with
  | nil => simp at h
  | cons m rest ih =>
    obtain ⟨w, hw, hwrole⟩ := h
    by_cases hsys : m.role = RoleVal.str "system"
    · have hwt : w ∈ rest := by
        cases List.mem_cons.mp hw with
        | inl heq => rw [heq] at hwrole; rw [hwrole] at hsys; exact absurd hsys (by simp)
        | inr ht => exact ht
      obtain ⟨msg, hmsg⟩ := ih ⟨w, hwt, hwrole⟩
      exact ⟨msg, by rw [formatBody, if_pos hsys]; exact hmsg⟩
    · cases hrole : m.role with
      | undef =>
        refine ⟨"role.toLowerCase is not a function", ?_⟩
        rw [formatBody, if_neg hsys, hrole]
        simp [_getRoleName]
      | str s =>
        have hwt : w ∈ rest := by
          cases List.mem_cons.mp hw with
          | inl heq => rw [heq] at hwrole; rw [hwrole] at hrole; exact absurd hrole (by simp)
          | inr ht => exact ht
        obtain ⟨msg, hmsg⟩ := ih ⟨w, hwt, hwrole⟩
        refine ⟨msg, ?_⟩
        rw [formatBody, if_neg hsys, hrole]
        simp only [_getRoleName]
        rw [hmsg]

/-- **C6 counterexample.** The name `"constructor"` is not one of the
table's entries, yet the bracket lookup hits the inherited
`Object.prototype.constructor` — a truthy non-string — so the function
returns that inherited value, not the fixed default id. -/
theorem getSemossModelId_prototype_hit :
    _getSemossModelId "constructor" = ModelIdVal.inherited "constructor" ∧
    ModelIdVal.inherited "constructor" ≠ ModelIdVal.str defaultModelId ∧
    "constructor" ∉ ["Llama-3.1-8B-Instruct", "Qwen2.5-7B-Instruct"] :=
  ⟨by decide, by decide, by decide⟩

/-- **C6 (amended).** `_getSemossModelId` never fails: the two table
entries map to their fixed vendor ids; an unknown name that is not an
inherited `Object.prototype` key — the empty string included — maps to
the fixed default id; for an `Object.prototype` key (`"constructor"`,
`"toString"`, `"hasOwnProperty"`, ...) it returns the inherited truthy
non-string value instead of the default. -/
theorem getSemossModelId_cases :
    _getSemossModelId "Llama-3.1-8B-Instruct" =
      ModelIdVal.str "305f694d-c91c-400f-bd6c-b7e1dfbb5a4b" ∧
    _getSemossModelId "Qwen2.5-7B-Instruct" =
      ModelIdVal.str "a1b1b9ad-17c7-473a-9dfb-b2b8c29cdef0" ∧
    _getSemossModelId "" = ModelIdVal.str defaultModelId ∧
    (∀ s : String, s ≠ "Llama-3.1-8B-Instruct" → s ≠ "Qwen2.5-7B-Instruct" →
      s ∉ objectPrototypeKeys → _getSemossModelId s = ModelIdVal.str defaultModelId) ∧
    (∀ s : String, s ∈ objectPrototypeKeys →
      _getSemossModelId s = ModelIdVal.inherited s) := by
  refine ⟨by decide, by decide, by decide, ?_, ?_⟩
  · intro s h1 h2 hp
    have hb1 : (s == "Llama-3.1-8B-Instruct") = false := beq_eq_false_iff_ne.mpr h1
    have hb2 : (s == "Qwen2.5-7B-Instruct") = false := beq_eq_false_iff_ne.mpr h2
    simp [_getSemossModelId, modelMapGet, modelMap, List.lookup, hb1, hb2, hp]
  · intro s hp
    simp only [objectPrototypeKeys, List.mem_cons, List.not_mem_nil, or_false] at hp
    rcases hp with rfl | rfl | rfl | rfl | rfl | rfl | rfl | rfl | rfl | rfl | rfl | rfl <;>
      decide

/-- Witness for C6's amended theorem at the concrete unknown name
`"gpt-4o"`. -/
theorem getSemossModelId_cases_witness :
    _getSemossModelId "gpt-4o" = ModelIdVal.str defaultModelId :=
  getSemossModelId_cases.2.2.2.1 "gpt-4o" (by decide) (by decide) (by decide)

/-- **C5.** `_formatMessagesForSemoss` throws a validation error exactly
when the message list is empty or contains no message with role
`"user"`. -/
theorem formatMessages_validation_iff (messages : List MessageJS) :
    (∃ msg, _formatMessagesForSemoss messages = Except.error (JsError.validation msg)) ↔
    (messages = [] ∨ ∀ m ∈ messages, m.role ≠ RoleVal.str "user") := by
  by_cases hlen : messages.length = 0
  · have hempty : messages = [] := List.length_eq_zero.mp hlen
    constructor
    · intro _; exact Or.inl hempty
    · intro _
      exact ⟨"Messages array is empty or invalid", by
        rw [_formatMessagesForSemoss, if_pos hlen]⟩
  · by_cases hany : messages.any (fun m => decide (m.role = RoleVal.str "user")) = false
    · constructor
      · intro _
        refine Or.inr fun m hm heq => ?_
        rw [List.any_eq_false] at hany
        exact hany m hm (by simp [heq])
      · intro _
        exact ⟨"At least one user message is required", by
          rw [_formatMessagesForSemoss, if_neg hlen, if_pos hany]⟩
    · have hany' : messages.any (fun m => decide (m.role = RoleVal.str "user")) = true :=
        eq_true_of_ne_false hany
      constructor
      · rintro ⟨msg, hmsg⟩
        rw [_formatMessagesForSemoss, if_neg hlen] at hmsg
        rw [if_neg (by rw [hany']; simp)] at hmsg
        cases hb : formatBody messages with
        | error e =>
          rw [hb] at hmsg
          obtain ⟨m', hm'⟩ := formatBody_error_typeError messages e hb
          rw [hm'] at hmsg
          exact absurd (Except.error.injEq _ _ ▸ hmsg) (by simp)
        | ok b => rw [hb] at hmsg; exact absurd hmsg (by simp)
      · intro h
        cases h with
        | inl hempty => rw [hempty] at hlen; exact absurd rfl hlen
        | inr hnone =>
          obtain ⟨m, hm, hrole⟩ := List.any_eq_true.mp hany'
          exact absurd (of_decide_eq_true hrole) (hnone m hm)

/-- Witness for C5 at a concrete list with no user message. -/
theorem formatMessages_validation_iff_witness :
    ∃ msg, _formatMessagesForSemoss [{ role := RoleVal.str "assistant", content := "x" }] =
      Except.error (JsError.validation msg) :=
  (formatMessages_validation_iff _).mpr (Or.inr (by intro m hm; simp at hm; rw [hm]; simp))

/-- **C10.** With a `"user"`-roled message present, a non-string role on
any other (non-system) message makes the formatter throw a `TypeError`
from `role.toLowerCase`, not return a prompt or a validation error. -/
theorem formatMessages_typeError_on_nonstring_role (messages : List MessageJS)
    (huser : ∃ m ∈ messages, m.role = RoleVal.str "user")
    (hundef : ∃ m ∈ messages, m.role = RoleVal.undef) :
    ∃ msg, _formatMessagesForSemoss messages = Except.error (JsError.typeError msg) := by
  obtain ⟨u, hu, hurole⟩ := huser
  have hlen : messages.length ≠ 0 := by
    intro h0
    rw [List.length_eq_zero.mp h0] at hu
    simp at hu
  have hany : messages.any (fun m => decide (m.role = RoleVal.str "user")) = true :=
    List.any_eq_true.mpr ⟨u, hu, by simpa using hurole⟩
  obtain ⟨msg, hmsg⟩ := formatBody_typeError_of_undef messages hundef
  refine ⟨msg, ?_⟩
  rw [_formatMessagesForSemoss, if_neg hlen, if_neg (by rw [hany]; simp)]
  rw [hmsg]

/-- **C2.** On well-typed message lists (every role a string) that are
non-empty and contain a user message, the formatter returns without
throwing a string containing `<conversation_history>` and ending in
`Assistant: `; on the spec's example it produces exactly the expected
prompt, with the system block followed by `User: Hi`. -/
theorem formatMessages_shape :
    (∀ msgs : List Message, msgs ≠ [] → (∃ m ∈ msgs, m.role = "user") →
      ∃ out, _formatMessagesForSemoss (msgs.map Message.toJS) = Except.ok out ∧
        ContainsSub out "<conversation_history>" ∧ EndsWithStr out "Assistant: ") ∧
    (_formatMessagesForSemoss exampleMessages = Except.ok exampleFormatted ∧
      ContainsSeq exampleFormatted "<system_prompt>\n Be terse\n</system_prompt>" "User: Hi" ∧
      EndsWithStr exampleFormatted "Assistant: ") := by
  constructor
  · intro msgs hne huser
    have hroles : ∀ m ∈ msgs.map Message.toJS, ∃ s, m.role = RoleVal.str s := by
      intro m hm
      obtain ⟨m0, _, rfl⟩ := List.mem_map.mp hm
      exact ⟨m0.role, rfl⟩
    obtain ⟨body, hbody⟩ := formatBody_ok_of_str_roles _ hroles
    have hlen : (msgs.map Message.toJS).length ≠ 0 := by
      simp only [List.length_map]
      exact fun h => hne (List.length_eq_zero.mp h)
    have hany : (msgs.map Message.toJS).any
        (fun m => decide (m.role = RoleVal.str "user")) = true := by
      obtain ⟨m0, hm0, hrole⟩ := huser
      exact List.any_eq_true.mpr
        ⟨Message.toJS m0, List.mem_map_of_mem _ hm0, by simp [Message.toJS, hrole]⟩
    have heq : _formatMessagesForSemoss (msgs.map Message.toJS) = Except.ok
        ((((sysHead (msgs.map Message.toJS) ++ "<conversation_history>\n") ++ body)
          ++ "</conversation_history>\n") ++ "Assistant: ") := by
      rw [_formatMessagesForSemoss, if_neg hlen, if_neg (by rw [hany]; simp), hbody]
    refine ⟨_, heq, ?_, ?_⟩
    · refine ⟨sysHead (msgs.map Message.toJS),
        "\n" ++ (body ++ ("</conversation_history>\n" ++ "Assistant: ")), ?_⟩
      have hsplit : ("<conversation_history>\n" : String) =
        "<conversation_history>" ++ "\n" := rfl
      rw [hsplit]
      simp only [String.append_assoc]
    · exact ⟨_, rfl⟩
  · refine ⟨by decide, ?_, ?_⟩
    · exact ⟨"", "\n\n<conversation_history>\n", "\n\n</conversation_history>\nAssistant: ",
        by decide⟩
    · exact ⟨"<system_prompt>\n Be terse\n</system_prompt>\n\n<conversation_history>\nUser: Hi\n\n</conversation_history>\n",
        by decide⟩

/-- Witness for C2 at the concrete one-message user list. -/
theorem formatMessages_shape_witness :
    ∃ out, _formatMessagesForSemoss
      (([{ role := "user", content := "Hi" }] : List Message).map Message.toJS) = Except.ok out ∧
      ContainsSub out "<conversation_history>" ∧ EndsWithStr out "Assistant: " :=
  formatMessages_shape.1 [{ role := "user", content := "Hi" }] (by simp)
    ⟨{ role := "user", content := "Hi" }, by simp, rfl⟩

/-- Witness for C10 at a concrete two-message list. -/
theorem formatMessages_typeError_witness :
    ∃ msg, _formatMessagesForSemoss
      [{ role := RoleVal.str "user", content := "Hi" },
       { role := RoleVal.undef, content := "x" }] =
      Except.error (JsError.typeError msg) :=
  formatMessages_typeError_on_nonstring_role _
    ⟨{ role := RoleVal.str "user", content := "Hi" }, by simp, rfl⟩
    ⟨{ role := RoleVal.undef, content := "x" }, by simp, rfl⟩

/-- **C3 counterexample.** The claim's string case fails at the empty
string: the JS truthiness guard on `pixelReturn[0].output` treats the
string output `""` as absent, so the content is the placeholder, not
the output string itself. -/
theorem formatResponse_empty_string_output :
    ((_formatSemossResponse
        { pixelReturn := [{ output := OutputVal.strV "" }], errors := [], insightId := none }
        0).choices.map (fun c => c.message.content)) = ["No response received"] ∧
    ("No response received" : String) ≠ "" := ⟨by decide, by decide⟩

/-- **C3 (amended).** Object output `{response: "hi",
numberOfTokensInResponse: 3}` yields content `"hi"` with 3 completion
tokens; a *non-empty* string output yields that string with 0 tokens;
when nothing is extractable (empty pixel return, falsy output — the
empty string included — or an object without truthy `response`), the
content is the fixed placeholder with 0 tokens. -/
theorem formatResponse_cases :
    (∀ (rest : List PixelReturnEntry) (errs : List String) (iid : Option String) (now : Nat),
      ((_formatSemossResponse
          { pixelReturn := { output := OutputVal.objV (some "hi") (some 3) } :: rest,
            errors := errs, insightId := iid } now).choices.map
        (fun c => c.message.content)) = ["hi"] ∧
      (_formatSemossResponse
          { pixelReturn := { output := OutputVal.objV (some "hi") (some 3) } :: rest,
            errors := errs, insightId := iid } now).usage.completion_tokens = 3) ∧
    (∀ (rest : List PixelReturnEntry) (errs : List String) (iid : Option String) (now : Nat)
      (s : String), s ≠ "" →
      ((_formatSemossResponse
          { pixelReturn := { output := OutputVal.strV s } :: rest,
            errors := errs, insightId := iid } now).choices.map
        (fun c => c.message.content)) = [s] ∧
      (_formatSemossResponse
          { pixelReturn := { output := OutputVal.strV s } :: rest,
            errors := errs, insightId := iid } now).usage.completion_tokens = 0) ∧
    (∀ (r : SemossResponse) (now : Nat), extractsNothing r →
      ((_formatSemossResponse r now).choices.map (fun c => c.message.content)) =
        ["No response received"] ∧
      (_formatSemossResponse r now).usage.completion_tokens = 0) := by
  refine ⟨?_, ?_, ?_⟩
  · intro rest errs iid now
    constructor <;> rfl
  · intro rest errs iid now s hs
    have ht : outTruthy (OutputVal.strV s) = true := by simp [outTruthy, hs]
    constructor <;> simp [_formatSemossResponse, extractPair, ht]
  · intro r now h
    obtain ⟨prs, errs, iid⟩ := r
    cases prs with
    | nil => constructor <;> rfl
    | cons pr rest =>
      simp only [extractsNothing] at h
      cases h with
      | inl hfalse =>
        constructor <;> simp [_formatSemossResponse, extractPair, hfalse]
      | inr hobj =>
        obtain ⟨resp, toks, hout, hresp⟩ := hobj
        constructor <;> simp [_formatSemossResponse, extractPair, hout, outTruthy, hresp]

/-- Witness for C3's amended theorem at concrete vendor results. -/
theorem formatResponse_cases_witness :
    ((_formatSemossResponse
        { pixelReturn := [{ output := OutputVal.strV "hi" }], errors := [], insightId := none }
        0).choices.map (fun c => c.message.content)) = ["hi"] ∧
    (_formatSemossResponse
        { pixelReturn := [{ output := OutputVal.strV "hi" }], errors := [], insightId := none }
        0).usage.completion_tokens = 0 :=
  formatResponse_cases.2.1 [] [] none 0 "hi" (by decide)

/-- **C4.** Once a non-streaming `createChatCompletion` call reaches the
query, a vendor result carrying a non-empty `errors` list makes the call
throw `SEMOSS API Error: ` followed by the comma-joined error text, and
a rejection of the query itself is wrapped with the same prefix. -/
theorem create_wraps_api_errors (st : AdapterState) (env : Except String InitResult)
    (opts : Options) (msgs : List MessageJS) (content : String)
    (qr : Except String SemossResponse) (now : Nat)
    (h0 : (_ensureInitialized st env).2 = none)
    (h1 : opts.messages = some msgs) (h2 : msgs ≠ [])
    (h3 : _formatMessagesForSemoss msgs = Except.ok content)
    (h4 : opts.stream = false) :
    (∀ result : SemossResponse, qr = Except.ok result → result.errors ≠ [] →
      createChatCompletion st env opts qr now = Except.error (JsError.error
        ("SEMOSS API Error: " ++ String.intercalate ", " result.errors))) ∧
    (∀ m : String, qr = Except.error m →
      createChatCompletion st env opts qr now =
        Except.error (JsError.error ("SEMOSS API Error: " ++ m))) := by
  have hlen : msgs.length ≠ 0 := fun h => h2 (List.length_eq_zero.mp h)
  have hcreate : ∀ q : Except String SemossResponse, createChatCompletion st env opts q now =
      match q with
      | Except.error m => Except.error (JsError.error ("SEMOSS API Error: " ++ m))
      | Except.ok result =>
        if result.errors.length ≠ 0 then
          Except.error (JsError.error
            ("SEMOSS API Error: " ++ String.intercalate ", " result.errors))
        else Except.ok (CreateResult.completion (_formatSemossResponse result now)) := by
    intro q
    rw [createChatCompletion.eq_def]
    rcases hpair : _ensureInitialized st env with ⟨st', err⟩
    rw [hpair] at h0
    simp only at h0
    subst h0
    simp only [h1, h3, h4, if_neg hlen]
    simp
  constructor
  · intro result hqr herr
    rw [hcreate, hqr]
    simp only
    rw [if_pos (fun h => herr (List.length_eq_zero.mp h))]
  · intro m hqr
    rw [hcreate, hqr]

/-- Witness for C4 at a concrete errored vendor result. -/
theorem create_wraps_api_errors_witness :
    createChatCompletion readyState okEnv
      { model := none, messages := some [{ role := RoleVal.str "user", content := "Hi" }],
        stream := false }
      (Except.ok { pixelReturn := [], errors := ["boom"], insightId := none }) 0 =
      Except.error (JsError.error "SEMOSS API Error: boom") := by
  have h := (create_wraps_api_errors readyState okEnv
    { model := none, messages := some [{ role := RoleVal.str "user", content := "Hi" }],
      stream := false }
    [{ role := RoleVal.str "user", content := "Hi" }]
    "<conversation_history>\nUser: Hi\n\n</conversation_history>\nAssistant: "
    (Except.ok { pixelReturn := [], errors := ["boom"], insightId := none }) 0
    (by decide) rfl (by simp) (by decide) rfl).1
    { pixelReturn := [], errors := ["boom"], insightId := none } rfl (by simp)
  simpa using h

/-- **C8.** `_ensureInitialized` re-runs the bootstrap whenever either
flag is false, propagates a bootstrap failure unchanged, throws when the
re-bootstrap leaves the flags not both true, succeeds only in states with
both flags true — and `createChatCompletion`'s body runs only behind a
successful guard (a guard failure is the call's result). -/
theorem ensure_guard_invariant (st : AdapterState) (env : Except String InitResult)
    (opts : Options) (qr : Except String SemossResponse) (now : Nat) :
    ((st.initialized = false ∨ st.authorized = false) →
      _ensureInitialized st env = ensureFlagsCheck ( _initialize st env)) ∧
    (∀ (st1 : AdapterState) (e : JsError), (st.initialized = false ∨ st.authorized = false) →
      _initialize st env = (st1, some e) → _ensureInitialized st env = (st1, some e)) ∧
    (∀ st1 : AdapterState, (st.initialized = false ∨ st.authorized = false) →
      _initialize st env = (st1, none) → ¬(st1.initialized = true ∧ st1.authorized = true) →
      ∃ e, _ensureInitialized st env = (st1, some e)) ∧
    (∀ st' : AdapterState, _ensureInitialized st env = (st', none) →
      st'.initialized = true ∧ st'.authorized = true) ∧
    (∀ e : JsError, (_ensureInitialized st env).2 = some e →
      createChatCompletion st env opts qr now = Except.error e) := by
  refine ⟨?_, ?_, ?_, ?_, ?_⟩
  · intro hflag
    rw [_ensureInitialized, if_pos hflag]
  · intro st1 e hflag hinit
    rw [_ensureInitialized, if_pos hflag, hinit]
    rfl
  · intro st1 hflag hinit hnot
    rw [_ensureInitialized, if_pos hflag, hinit]
    rw [ensureFlagsCheck]
    by_cases hi : st1.initialized = false
    · exact ⟨_, by rw [if_pos hi]⟩
    · have hi' : st1.initialized = true := eq_true_of_ne_false hi
      have ha : st1.authorized = false := by
        cases hauth : st1.authorized with
        | false => rfl
        | true => exact absurd ⟨hi', hauth⟩ hnot
      exact ⟨_, by rw [if_neg hi, if_pos ha]⟩
  · intro st' h
    rw [_ensureInitialized] at h
    by_cases hflag : st.initialized = false ∨ st.authorized = false
    · rw [if_pos hflag] at h
      rcases hinit : _initialize st env with ⟨st1, err1⟩
      rw [hinit] at h
      cases err1 with
      | some e => exact absurd h (by simp [ensureFlagsCheck])
      | none =>
        rw [ensureFlagsCheck] at h
        by_cases hi : st1.initialized = false
        · rw [if_pos hi] at h; exact absurd h (by simp)
        · rw [if_neg hi] at h
          by_cases ha : st1.authorized = false
          · rw [if_pos ha] at h; exact absurd h (by simp)
          · rw [if_neg ha] at h
            cases h
            exact ⟨eq_true_of_ne_false hi, eq_true_of_ne_false ha⟩
    · rw [if_neg hflag] at h
      push_neg at hflag
      rw [ensureFlagsCheck, if_neg (by simp [hflag.1]), if_neg (by simp [hflag.2])] at h
      cases h
      exact ⟨eq_true_of_ne_false hflag.1, eq_true_of_ne_false hflag.2⟩
  · intro e h
    rw [createChatCompletion.eq_def]
    rcases hpair : _ensureInitialized st env with ⟨st', err⟩
    rw [hpair] at h
    simp only at h
    subst h
    rfl

/-- Witness for C8 at a concrete unauthorized state with a failing
re-bootstrap. -/
theorem ensure_guard_invariant_witness :
    _ensureInitialized { insightId := none, initialized := false, authorized := false }
        (Except.error "network down") =
      ({ insightId := none, initialized := false, authorized := false },
        some (JsError.error "Failed to initialize SEMOSS SDK: network down")) :=
  (ensure_guard_invariant { insightId := none, initialized := false, authorized := false }
      (Except.error "network down")
      { model := none, messages := none, stream := false } (Except.ok
        { pixelReturn := [], errors := [], insightId := none }) 0).2.1
    { insightId := none, initialized := false, authorized := false }
    (JsError.error "Failed to initialize SEMOSS SDK: network down")
    (Or.inl rfl) (by rfl)

/-- **C9 counterexample.** The two adapter definitions do not behave the
same on every input: on a ready adapter with an empty messages array the
full variant throws the validation error while the truncated variant
resolves (to `undefined`). -/
theorem variants_disagree_on_empty_messages :
    createChatCompletion readyState okEnv emptyMessagesOpts
        (Except.ok { pixelReturn := [], errors := [], insightId := none }) 0 =
      Except.error (JsError.validation "Messages array is required") ∧
    createChatCompletionV2 readyState okEnv emptyMessagesOpts = Except.ok () ∧
    succeeds (createChatCompletion readyState okEnv emptyMessagesOpts
        (Except.ok { pixelReturn := [], errors := [], insightId := none }) 0) ≠
      succeeds (createChatCompletionV2 readyState okEnv emptyMessagesOpts) := by
  refine ⟨by rfl, by rfl, by decide⟩

/-- **C9 (amended).** Both near-duplicate adapter definitions track the
authorized flag and agree on guard failures, but their public
`createChatCompletion` operations do not behave the same: whenever the
guard passes, the truncated variant resolves to `undefined` regardless
of the options — in particular it succeeds on the empty messages array
that the full variant rejects. -/
theorem variants_guard_agree_but_diverge (st : AdapterState)
    (env : Except String InitResult) (opts : Options)
    (qr : Except String SemossResponse) (now : Nat) :
    (∀ e : JsError, (_ensureInitialized st env).2 = some e →
      createChatCompletion st env opts qr now = Except.error e ∧
      createChatCompletionV2 st env opts = Except.error e) ∧
    ((_ensureInitialized st env).2 = none →
      createChatCompletionV2 st env opts = Except.ok ()) ∧
    (succeeds (createChatCompletion readyState okEnv emptyMessagesOpts
        (Except.ok { pixelReturn := [], errors := [], insightId := none }) 0) = false ∧
      succeeds (createChatCompletionV2 readyState okEnv emptyMessagesOpts) = true) := by
  refine ⟨?_, ?_, by decide, by decide⟩
  · intro e h
    constructor
    · rw [createChatCompletion.eq_def]
      rcases hpair : _ensureInitialized st env with ⟨st', err⟩
      rw [hpair] at h
      simp only at h
      subst h
      rfl
    · rw [createChatCompletionV2]
      rcases hpair : _ensureInitialized st env with ⟨st', err⟩
      rw [hpair] at h
      simp only at h
      subst h
      rfl
  · intro h
    rw [createChatCompletionV2]
    rcases hpair : _ensureInitialized st env with ⟨st', err⟩
    rw [hpair] at h
    simp only at h
    subst h
    rfl

/-- Witness for C9's amended theorem at a concrete guard failure. -/
theorem variants_guard_agree_witness :
    createChatCompletion { insightId := none, initialized := false, authorized := false }
        (Except.error "network down")
        { model := none, messages := none, stream := false }
        (Except.ok { pixelReturn := [], errors := [], insightId := none }) 0 =
      Except.error (JsError.error "Failed to initialize SEMOSS SDK: network down") ∧
    createChatCompletionV2 { insightId := none, initialized := false, authorized := false }
        (Except.error "network down")
        { model := none, messages := none, stream := false } =
      Except.error (JsError.error "Failed to initialize SEMOSS SDK: network down") :=
  (variants_guard_agree_but_diverge
      { insightId := none, initialized := false, authorized := false }
      (Except.error "network down")
      { model := none, messages := none, stream := false }
      (Except.ok { pixelReturn := [], errors := [], insightId := none }) 0).1
    (JsError.error "Failed to initialize SEMOSS SDK: network down") (by rfl)

theorem jsSubstring_append (prev S : String) :
    jsSubstring (prev ++ S) prev.length = S := by
  rw [jsSubstring, String.data_append]
  show String.mk ((prev.data ++ S.data).drop prev.data.length) = S
  rw [List.drop_left]

theorem nextStep_growth (st : StreamState) (race : RaceOutcome)
    (herr : st.error = none) (hcomp : st.isComplete = false)
    (hgt : st.fullResponse.length > st.lastResponseLength) :
    (nextStep st race).2 =
      StepResult.yield (deltaChunk (jsSubstring st.fullResponse st.lastResponseLength)) ∧
    (nextStep st race).1.lastResponseLength = st.fullResponse.length ∧
    (nextStep st race).1.fullResponse = st.fullResponse ∧
    (nextStep st race).1.error = none ∧
    (nextStep st race).1.isComplete = false ∧
    (nextStep st race).1.started = true := by
  obtain ⟨ic, fr, lrl, sd, ta, cm, er⟩ := st
  cases er with
  | some e => exact absurd herr (by simp)
  | none =>
    cases cm with
    | true => exact absurd hcomp (by simp)
    | false =>
      cases sd <;> simp_all [nextStep, startStep]

theorem nextStep_resolved (st : StreamState)
    (herr : st.error = none) (hcomp : st.isComplete = false)
    (hng : st.fullResponse.length ≤ st.lastResponseLength) :
    (nextStep st RaceOutcome.resolved).2 = StepResult.yield stopChunk ∧
    (nextStep st RaceOutcome.resolved).1.isComplete = true ∧
    (nextStep st RaceOutcome.resolved).1.isCollecting = false ∧
    (nextStep st RaceOutcome.resolved).1.timerActive = false := by
  obtain ⟨ic, fr, lrl, sd, ta, cm, er⟩ := st
  cases er with
  | some e => exact absurd herr (by simp)
  | none =>
    cases cm with
    | true => exact absurd hcomp (by simp)
    | false =>
      have hng2 : ¬ lrl < fr.length := Nat.not_lt.mpr hng
      cases sd <;> simp [nextStep, startStep, hng2]

theorem nextStep_pending (st : StreamState)
    (herr : st.error = none) (hcomp : st.isComplete = false)
    (hng : st.fullResponse.length ≤ st.lastResponseLength) :
    (nextStep st RaceOutcome.pending).2 = StepResult.retry := by
  obtain ⟨ic, fr, lrl, sd, ta, cm, er⟩ := st
  cases er with
  | some e => exact absurd herr (by simp)
  | none =>
    cases cm with
    | true => exact absurd hcomp (by simp)
    | false =>
      have hng2 : ¬ lrl < fr.length := Nat.not_lt.mpr hng
      cases sd <;> simp [nextStep, startStep, hng2]

theorem nextStep_threw (st : StreamState) (m : String)
    (herr : st.error = none) (hcomp : st.isComplete = false)
    (hng : st.fullResponse.length ≤ st.lastResponseLength) :
    (nextStep st (RaceOutcome.threw m)).2 =
      StepResult.throwErr ("SEMOSS API Streaming Error: " ++ m) ∧
    (nextStep st (RaceOutcome.threw m)).1.error =
      some ("SEMOSS API Streaming Error: " ++ m) ∧
    (nextStep st (RaceOutcome.threw m)).1.timerActive = false ∧
    (nextStep st (RaceOutcome.threw m)).1.isCollecting = false := by
  obtain ⟨ic, fr, lrl, sd, ta, cm, er⟩ := st
  cases er with
  | some e => exact absurd herr (by simp)
  | none =>
    cases cm with
    | true => exact absurd hcomp (by simp)
    | false =>
      have hng2 : ¬ lrl < fr.length := Nat.not_lt.mpr hng
      cases sd <;> simp [nextStep, startStep, hng2]

theorem nextStep_done (st : StreamState) (race : RaceOutcome)
    (herr : st.error = none) (hcomp : st.isComplete = true) :
    nextStep st race = (st, StepResult.done) := by
  obtain ⟨ic, fr, lrl, sd, ta, cm, er⟩ := st
  cases er with
  | some e => exact absurd herr (by simp)
  | none =>
    cases cm with
    | false => exact absurd hcomp (by simp)
    | true => simp [nextStep]

theorem nextStep_poisoned (st : StreamState) (em : String) (race : RaceOutcome)
    (herr : st.error = some em) :
    nextStep st race = (st, StepResult.throwErr em) := by
  obtain ⟨ic, fr, lrl, sd, ta, cm, er⟩ := st
  cases er with
  | none => exact absurd herr (by simp)
  | some e =>
    have he : e = em := by simpa using herr
    subst he
    simp [nextStep]

/-- **C1.** One advance over a buffer that extends the last-emitted
prefix by a non-empty `S` yields exactly one delta chunk, whose content
is `S` and whose finish reason is null, and moves the cursor so the same
extension is never re-emitted (on the unchanged buffer a further advance
can only yield the terminal chunk); with no growth and the query
observed resolved, the advance yields the single terminal chunk — empty
delta, finish reason `"stop"` — and marks the stream complete; once
complete, every advance returns the end-of-sequence signal with no
value. -/
theorem stream_delta_stop_done :
    (∀ (st : StreamState) (prev S : String) (race : RaceOutcome),
      st.error = none → st.isComplete = false →
      st.fullResponse = prev ++ S → S ≠ "" → st.lastResponseLength = prev.length →
      (nextStep st race).2 = StepResult.yield (deltaChunk S) ∧
      (deltaChunk S).delta = some S ∧ (deltaChunk S).finish_reason = none ∧
      (nextStep st race).1.lastResponseLength = st.fullResponse.length ∧
      (∀ (race' : RaceOutcome) (c : Chunk),
        (nextStep (nextStep st race).1 race').2 = StepResult.yield c → c = stopChunk)) ∧
    (∀ st : StreamState, st.error = none → st.isComplete = false →
      st.fullResponse.length ≤ st.lastResponseLength →
      (nextStep st RaceOutcome.resolved).2 = StepResult.yield stopChunk ∧
      stopChunk.delta = none ∧ stopChunk.finish_reason = some "stop" ∧
      (nextStep st RaceOutcome.resolved).1.isComplete = true) ∧
    (∀ (st : StreamState) (race : RaceOutcome), st.error = none → st.isComplete = true →
      nextStep st race = (st, StepResult.done)) := by
  refine ⟨?_, ?_, ?_⟩
  · intro st prev S race herr hcomp hfull hS hlast
    have hgt : st.fullResponse.length > st.lastResponseLength := by
      rw [hfull, hlast, String.length_append]
      exact Nat.lt_add_of_pos_right (length_pos_of_ne_empty S hS)
    have hsub : jsSubstring st.fullResponse st.lastResponseLength = S := by
      rw [hfull, hlast]; exact jsSubstring_append prev S
    obtain ⟨hy, hlen2, hfr2, herr2, hcomp2, _⟩ := nextStep_growth st race herr hcomp hgt
    refine ⟨by rw [hy, hsub], rfl, rfl, hlen2, ?_⟩
    intro race' c hc
    have hng2 : (nextStep st race).1.fullResponse.length ≤
        (nextStep st race).1.lastResponseLength := by
      rw [hfr2, hlen2]
    cases race' with
    | resolved =>
      rw [(nextStep_resolved _ herr2 hcomp2 hng2).1] at hc
      exact (by simpa using hc.symm : c = stopChunk)
    | pending =>
      rw [nextStep_pending _ herr2 hcomp2 hng2] at hc
      exact absurd hc (by simp)
    | threw m =>
      rw [(nextStep_threw _ m herr2 hcomp2 hng2).1] at hc
      exact absurd hc (by simp)
  · intro st herr hcomp hle
    obtain ⟨h1, h2, _, _⟩ := nextStep_resolved st herr hcomp hle
    exact ⟨h1, rfl, rfl, h2⟩
  · intro st race herr hcomp
    exact nextStep_done st race herr hcomp

/-- Witness for C1 at concrete iterator states. -/
theorem stream_delta_stop_done_witness :
    (nextStep (⟨true, "ab", 1, true, true, false, none⟩ : StreamState)
      RaceOutcome.pending).2 = StepResult.yield (deltaChunk "b") ∧
    (nextStep (⟨true, "ab", 2, true, true, false, none⟩ : StreamState)
      RaceOutcome.resolved).2 = StepResult.yield stopChunk ∧
    nextStep (⟨false, "ab", 2, true, false, true, none⟩ : StreamState)
      RaceOutcome.pending =
      ((⟨false, "ab", 2, true, false, true, none⟩ : StreamState), StepResult.done) := by
  refine ⟨?_, ?_, ?_⟩
  · exact (stream_delta_stop_done.1 _ "a" "b" RaceOutcome.pending rfl rfl (by decide)
      (by decide) rfl).1
  · exact (stream_delta_stop_done.2.1 _ rfl rfl (by decide)).1
  · exact stream_delta_stop_done.2.2 _ RaceOutcome.pending rfl rfl

/-- **C7.** A query rejection observed by an advance stops the timer,
stores the `SEMOSS API Streaming Error: `-prefixed message, and makes
the current advance throw it; any state with a stored error makes every
advance rethrow it without yielding a chunk — the failure poisons all
later iteration attempts on that stream. -/
theorem stream_error_poisons :
    (∀ (st : StreamState) (m : String), st.error = none → st.isComplete = false →
      st.fullResponse.length ≤ st.lastResponseLength →
      (nextStep st (RaceOutcome.threw m)).2 =
        StepResult.throwErr ("SEMOSS API Streaming Error: " ++ m) ∧
      (nextStep st (RaceOutcome.threw m)).1.error =
        some ("SEMOSS API Streaming Error: " ++ m) ∧
      (nextStep st (RaceOutcome.threw m)).1.timerActive = false ∧
      (nextStep st (RaceOutcome.threw m)).1.isCollecting = false ∧
      (∀ race' : RaceOutcome, nextStep (nextStep st (RaceOutcome.threw m)).1 race' =
        ((nextStep st (RaceOutcome.threw m)).1,
          StepResult.throwErr ("SEMOSS API Streaming Error: " ++ m)))) ∧
    (∀ (st : StreamState) (em : String) (race : RaceOutcome), st.error = some em →
      nextStep st race = (st, StepResult.throwErr em) ∧
      ∀ c : Chunk, (nextStep st race).2 ≠ StepResult.yield c) := by
  constructor
  · intro st m herr hcomp hle
    obtain ⟨h1, h2, h3, h4⟩ := nextStep_threw st m herr hcomp hle
    refine ⟨h1, h2, h3, h4, ?_⟩
    intro race'
    exact nextStep_poisoned _ _ race' h2
  · intro st em race herr
    refine ⟨nextStep_poisoned st em race herr, ?_⟩
    intro c hc
    rw [nextStep_poisoned st em race herr] at hc
    exact absurd hc (by simp)

/-- Witness for C7 at a concrete collecting state. -/
theorem stream_error_poisons_witness :
    (nextStep (⟨true, "ab", 2, true, true, false, none⟩ : StreamState)
      (RaceOutcome.threw "socket closed")).2 =
      StepResult.throwErr ("SEMOSS API Streaming Error: " ++ "socket closed") :=
  (stream_error_poisons.1 _ "socket closed" rfl rfl (by decide)).1

end Semoss
